import Mathlib

/-
  Verification development for the backup-tool repository.

  The repository stores content-addressed blobs and a chain of snapshot
  delta records on the filesystem.  The source file holds two variants of
  the FileService class: an asynchronous one (cache-backed) and a
  synchronous one.  Where the two variants differ the definitions below
  carry the variant in their name (Sync vs the cache/async versions).

  Modelling conventions:
  - Byte sequences (file contents) and digests are Strings; blob size is
    the String length.
  - The content hash (crypto sha256 in the source, an external library)
    is an explicit function parameter wherever the source hashes; the
    only property the source relies on is determinism, and concrete
    evaluations instantiate it with an injective stand-in.
  - The persisted state (the snapshots directory and the sharded blobs
    directory) is a Store: a list of snapshot records (at most one per
    id on a real filesystem) and an association list digest to content.
    The shard layout blobs/xy/rest always recombines to the full digest,
    so the association list is an exact model of the blob directory.
  - JavaScript objects are association lists with upsert semantics
    (setKey), mirroring insertion order and in-place update.
  - Walks along parent pointers take an explicit fuel argument (the
    source recursion has no bound; on any state the code actually
    reaches, parents strictly decrease, so any fuel at least the largest
    id makes the model walk the whole chain).
  - A scanned directory is the list of (relative path, content) pairs
    that the recursive walk flattenDir produces, in traversal order.
-/

namespace BackupTool

abbrev Path := String
abbrev Content := String
abbrev Digest := String
abbrev Flat := List (Path × Digest)
abbrev Dir := List (Path × Content)

/-- Lookup in a JavaScript-object-style association list. -/
def getKey {α : Type} (m : List (String × α)) (k : String) : Option α :=
  (m.find? (fun kv => kv.1 == k)).map (fun kv => kv.2)

/-- Membership test, modelling the JavaScript in operator. -/
def hasKey {α : Type} (m : List (String × α)) (k : String) : Bool :=
  m.any (fun kv => kv.1 == k)

/-- Assignment m[k] = v on a JavaScript object: update in place when the
key exists, append otherwise. -/
def setKey {α : Type} (m : List (String × α)) (k : String) (v : α) : List (String × α) :=
  if m.any (fun kv => kv.1 == k) then
    m.map (fun kv => if kv.1 == k then (k, v) else kv)
  else m ++ [(k, v)]

/-- Deletion of a key, modelling the JavaScript delete operator. -/
def delKey {α : Type} (m : List (String × α)) (k : String) : List (String × α) :=
  m.filter (fun kv => !(kv.1 == k))

/-- The changes field of a snapshot record (types/index.ts). -/
structure SnapshotChanges where
  added : List (Path × Digest)
  modified : List (Path × Digest)
  deleted : List Path
deriving DecidableEq

/-- A snapshot record (types/index.ts). -/
structure Snapshot where
  id : Nat
  date : String
  parent : Option Nat
  changes : SnapshotChanges
deriving DecidableEq

def emptyChanges : SnapshotChanges := { added := [], modified := [], deleted := [] }

/-- The persisted database: snapshot records (SNAP_DIR) and stored
blobs keyed by digest (BLOBS_DIR). -/
structure Store where
  snaps : List Snapshot
  blobs : List (Digest × Content)
deriving DecidableEq

def Store.findSnap (s : Store) (id : Nat) : Option Snapshot :=
  s.snaps.find? (fun sn => sn.id == id)

def Store.findBlob (s : Store) (h : Digest) : Option Content :=
  (s.blobs.find? (fun bc => bc.1 == h)).map (fun bc => bc.2)

def emptyStore : Store := { snaps := [], blobs := [] }

/-- FileService.loadSnapshot (both variants): when the record file is
absent it returns a sentinel empty record instead of failing; otherwise
it parses the record. -/
def loadSnapshot (s : Store) (id : Nat) : Snapshot :=
  match s.findSnap id with
  | some sn => sn
  | none => { id := id, date := "", parent := none, changes := emptyChanges }

/-- FileService.saveSnapshot: writeFileSync on snapshots/id.json, an
upsert keyed by the id. -/
def saveSnapshot (s : Store) (snap : Snapshot) : Store :=
  if s.snaps.any (fun sn => sn.id == snap.id) then
    { s with snaps := s.snaps.map (fun sn => if sn.id == snap.id then snap else sn) }
  else
    { s with snaps := s.snaps ++ [snap] }

def maxSnapshotId (s : Store) : Nat :=
  s.snaps.foldr (fun sn m => max sn.id m) 0

/-- FileService.lastSnapshotId: none when the snapshots directory is
empty, otherwise the maximum id among the record files. -/
def lastSnapshotId (s : Store) : Option Nat :=
  if s.snaps.isEmpty then none else some (maxSnapshotId s)

/-- FileService.blobsInSnapshot: the digests in the added and modified
maps of one record, one per path entry. -/
def blobsInSnapshot (snap : Snapshot) : List Digest :=
  snap.changes.added.map (fun kv => kv.2) ++ snap.changes.modified.map (fun kv => kv.2)

/-- The set of digests referenced by all persisted snapshots, as
collected during pruneSnapshot (listSnapshots / getAllUsedBlobs). -/
def usedBlobs (s : Store) : List Digest :=
  s.snaps.foldr (fun sn acc => blobsInSnapshot sn ++ acc) []

/-- FileService.storeBlob: write the content at its digest unless a blob
file already exists there (idempotent store). -/
def storeBlob (hash : Content → Digest) (s : Store) (c : Content) : Store :=
  let h := hash c
  if (s.findBlob h).isSome then s else { s with blobs := s.blobs ++ [(h, c)] }

/-- FileService.loadContent: readFileSync of the blob file; fails when
the blob is absent. -/
def loadContent (s : Store) (h : Digest) : Except String Content :=
  match s.findBlob h with
  | some c => Except.ok c
  | none => Except.error ("ENOENT: " ++ h)

/-- One replay step of reconstructSnapshot: apply added and modified as
upserts, then deletions. -/
def applyChanges (flat : Flat) (ch : SnapshotChanges) : Flat :=
  let f1 := ch.added.foldl (fun acc kv => setKey acc kv.1 kv.2) flat
  let f2 := ch.modified.foldl (fun acc kv => setKey acc kv.1 kv.2) f1
  ch.deleted.foldl (fun acc k => delKey acc k) f2

/-- FileService.reconstructSnapshot (sync variant): recursively
reconstruct the parent (a falsy parent, null or 0, stops), then apply
the own delta.  fuel bounds the recursion. -/
def reconstructSnapshot (fuel : Nat) (s : Store) (id : Nat) : Flat :=
  match fuel with
  | 0 => []
  | fuel + 1 =>
    let snap := loadSnapshot s id
    let base : Flat :=
      match snap.parent with
      | some p => if p == 0 then [] else reconstructSnapshot fuel s p
      | none => []
    applyChanges base snap.changes

/-- FileService.flattenDir: the scan of the directory produces the flat
relative-path to digest object, in traversal order. -/
def flattenDir (hash : Content → Digest) (d : Dir) : Flat :=
  d.foldl (fun flat pc => setKey flat pc.1 (hash pc.2)) []

/-- The id the source assigns to a new snapshot:
newId = lastId truthy, lastId + 1, otherwise 1. -/
def newSnapshotId (s : Store) : Nat :=
  match lastSnapshotId s with
  | some l => if l == 0 then 1 else l + 1
  | none => 1

/-- The parent field the source gives a new snapshot:
parent = parent record loaded when lastId is truthy, else null. -/
def parentIdForNew (s : Store) : Option Nat :=
  match lastSnapshotId s with
  | some l => if l == 0 then none else some l
  | none => none

/-- FileService.createSnapshot (sync variant).  Scans the directory,
reconstructs the predecessor flat state, stores each blob, classifies
each scanned path (note: the source compares hashContent(parentFlat[p])
with the new digest, re-hashing the stored digest), collects deletions,
and persists the record.  The lookup of the file content by relative
path mirrors the readFileSync inside the loop; the none branch is
unreachable because the loop runs over the paths the scan of the same
directory just produced. -/
def createSnapshotSync (hash : Content → Digest) (fuel : Nat) (date : String)
    (s : Store) (d : Dir) : Store × Snapshot :=
  let flat := flattenDir hash d
  let parentFlat : Flat :=
    match lastSnapshotId s with
    | some l => if l == 0 then [] else reconstructSnapshot fuel s l
    | none => []
  let step := fun (acc : Store × List (Path × Digest) × List (Path × Digest))
      (kv : Path × Digest) =>
    match getKey d kv.1 with
    | none => acc
    | some content =>
      let h := hash content
      let st := storeBlob hash acc.1 content
      match getKey parentFlat kv.1 with
      | none => (st, acc.2.1 ++ [(kv.1, h)], acc.2.2)
      | some oldDigest =>
        if hash oldDigest == h then (st, acc.2.1, acc.2.2)
        else (st, acc.2.1, acc.2.2 ++ [(kv.1, h)])
  let res := flat.foldl step (s, [], [])
  let deleted := parentFlat.foldl
    (fun acc kv => if hasKey flat kv.1 then acc else acc ++ [kv.1]) []
  let snap : Snapshot :=
    { id := newSnapshotId s, date := date, parent := parentIdForNew s,
      changes := { added := res.2.1, modified := res.2.2, deleted := deleted } }
  (saveSnapshot res.1 snap, snap)

/-- The classification loop of the async variant of createSnapshot:
it compares parentFlat[pathKey] with the new digest directly (no
re-hashing), over the scanned files with their contents and digests. -/
def createSnapshotAsyncChanges (hash : Content → Digest) (files : Dir)
    (flat parentFlat : Flat) : SnapshotChanges :=
  let am := files.foldl
    (fun (acc : SnapshotChanges) pc =>
      let h := hash pc.2
      match getKey parentFlat pc.1 with
      | none => { acc with added := acc.added ++ [(pc.1, h)] }
      | some old => if old == h then acc else { acc with modified := acc.modified ++ [(pc.1, h)] })
    emptyChanges
  { am with deleted := (parentFlat.foldl
      (fun acc kv => if hasKey flat kv.1 then acc else acc ++ [kv.1]) []) }

/-- FileService.restoreSnapshot (sync variant): reconstruct the flat
state and write every entry, loading each blob (a missing blob aborts
the restore).  The result is the relative-path to content map written
into the initially empty target directory. -/
def restoreSnapshot (fuel : Nat) (s : Store) (id : Nat) :
    Except String (List (Path × Content)) :=
  (reconstructSnapshot fuel s id).foldlM
    (fun target kv => (loadContent s kv.2).map (fun c => setKey target kv.1 c)) []

/-- FileService.pruneSnapshot (both variants behave identically on the
persisted state): fail when the record is absent (sentinel date), else
rewrite the parent of the record at id + 1 when that record points at
id, delete the record, recompute the referenced digests over the
remaining records, and delete every unreferenced blob. -/
def pruneSnapshot (s : Store) (id : Nat) : Except String Store :=
  let snapshot := loadSnapshot s id
  if snapshot.date == "" then
    Except.error ("Snapshot with ID " ++ toString id ++ " does not exist.")
  else
    let nextSnapshot := loadSnapshot s (id + 1)
    let s1 := if nextSnapshot.parent == some id then
        saveSnapshot s { nextSnapshot with parent := snapshot.parent }
      else s
    let s2 := { s1 with snaps := s1.snaps.filter (fun sn => !(sn.id == id)) }
    let used := usedBlobs s2
    Except.ok { s2 with blobs := s2.blobs.filter (fun bc => used.contains bc.1) }

/-- FileService.blobSize (async variant): stat of the blob file, 0 when
it is missing. -/
def blobSize (s : Store) (h : Digest) : Nat :=
  match s.findBlob h with
  | some c => c.length
  | none => 0

/-- FileService.blobSize (sync variant): statSync of the blob file,
which throws when it is missing. -/
def blobSizeSync (s : Store) (h : Digest) : Except String Nat :=
  match s.findBlob h with
  | some c => Except.ok c.length
  | none => Except.error ("ENOENT: " ++ h)

/-- FileService.logicalSize (sync variant): sum of blobSize over every
entry of the reconstructed flat state, aborting on a missing blob. -/
def logicalSizeSync (fuel : Nat) (s : Store) (id : Nat) : Except String Nat :=
  (reconstructSnapshot fuel s id).foldlM
    (fun total kv => (blobSizeSync s kv.2).map (fun sz => total + sz)) 0

/-- FileService.seenBefore (sync variant): walk the parent chain (a
falsy current id, null or 0, stops) looking for the digest among each
ancestor record added/modified digests. -/
def seenBefore : Nat → Store → Digest → Option Nat → Bool
  | _, _, _, none => false
  | 0, _, _, some _ => false
  | fuel + 1, s, h, some c =>
    if c == 0 then false
    else
      let parent := loadSnapshot s c
      if (blobsInSnapshot parent).contains h then true
      else seenBefore fuel s h parent.parent

/-- The digests collected along the same parent-chain walk that
seenBefore performs: the concatenation of blobsInSnapshot over every
ancestor reached. -/
def ancestorsDigests : Nat → Store → Option Nat → List Digest
  | _, _, none => []
  | 0, _, some _ => []
  | fuel + 1, s, some c =>
    if c == 0 then []
    else
      let parent := loadSnapshot s c
      blobsInSnapshot parent ++ ancestorsDigests fuel s parent.parent

/-- FileService.physicalSize (sync variant): over each entry of the own
record added/modified digest list, add blobSize (the throwing sync one)
when seenBefore does not find the digest in an ancestor. -/
def physicalSize (fuel : Nat) (s : Store) (id : Nat) : Except String Nat :=
  let snap := loadSnapshot s id
  (blobsInSnapshot snap).foldlM
    (fun total h =>
      if !(seenBefore fuel s h snap.parent) then
        (blobSizeSync s h).map (fun sz => total + sz)
      else Except.ok total) 0

/-- Duplicate removal keeping first occurrences (used only to state the
claim formula that reads the added/modified digests as a set). -/
def distinctAux (seen : List Digest) : List Digest → List Digest
  | [] => []
  | h :: t => if seen.contains h then distinctAux seen t else h :: distinctAux (h :: seen) t

def distinctList (l : List Digest) : List Digest := distinctAux [] l

/-- The claim C4 formula taken literally: sum of blob sizes over every
digest (as a set, counted once) of the own added/modified sets that
appears in no ancestor record. -/
def physicalSizeSpecSet (fuel : Nat) (s : Store) (id : Nat) : Nat :=
  let snap := loadSnapshot s id
  ((distinctList (blobsInSnapshot snap)).filter
      (fun h => !((ancestorsDigests fuel s snap.parent).contains h))).foldl
    (fun total h => total + blobSize s h) 0

/-- FileService.loadSnapshotWithCache (async variant): serve from the
in-process cache, else read the record file and cache it; a read
failure (absent record) is rethrown as an error. -/
def loadSnapshotWithCache (s : Store) (cache : List (Nat × Snapshot)) (id : Nat) :
    Except String (Snapshot × List (Nat × Snapshot)) :=
  match cache.find? (fun e => e.1 == id) with
  | some e => Except.ok (e.2, cache)
  | none =>
    match s.findSnap id with
    | some sn => Except.ok (sn, cache ++ [(id, sn)])
    | none => Except.error ("Failed to load snapshot " ++ toString id)

/-- Concrete injective stand-in for the content hash, used by the
concrete evaluations. -/
def demoHash (c : Content) : Digest := "H" ++ c

def dirAX : Dir := [("a", "x")]

/-- First snapshot of the directory a = x from the empty store. -/
def pairA1 : Store × Snapshot := createSnapshotSync demoHash 10 "d1" emptyStore dirAX

/-- Second snapshot of the same unchanged directory. -/
def pairA2 : Store × Snapshot := createSnapshotSync demoHash 10 "d2" pairA1.1 dirAX

/-- The directory whose single file now holds the digest string that the
predecessor recorded for it. -/
def dirDigestContent : Dir := [("a", "Hx")]

/-- Snapshot of dirDigestContent taken on top of pairA1. -/
def pairB2 : Store × Snapshot := createSnapshotSync demoHash 10 "d2" pairA1.1 dirDigestContent

def snapC2a : Snapshot :=
  { id := 1, date := "da", parent := none,
    changes := { added := [("a", "ha")], modified := [], deleted := [] } }

def snapC2b : Snapshot :=
  { id := 2, date := "db", parent := some 1,
    changes := { added := [("b", "hb")], modified := [], deleted := [] } }

def storeC2 : Store := { snaps := [snapC2a, snapC2b], blobs := [("ha", "A"), ("hb", "B")] }

def storeC2after : Store :=
  { snaps := [{ snapC2b with parent := none }], blobs := [("hb", "B")] }

def snapC4 : Snapshot :=
  { id := 1, date := "da", parent := none,
    changes := { added := [("a", "h"), ("b", "h")], modified := [], deleted := [] } }

def storeC4 : Store := { snaps := [snapC4], blobs := [("h", "12345")] }

def snapC4w : Snapshot :=
  { id := 1, date := "da", parent := none,
    changes := { added := [("a", "h")], modified := [], deleted := [] } }

def storeC4w : Store := { snaps := [snapC4w], blobs := [("h", "xyz")] }

def snapC5a : Snapshot := { id := 1, date := "da", parent := none, changes := emptyChanges }

def snapC5c : Snapshot := { id := 3, date := "dc", parent := some 1, changes := emptyChanges }

/-- A chain with non-contiguous ids: 1 is the parent of 3 (id 2 was
pruned earlier). -/
def storeC5 : Store := { snaps := [snapC5a, snapC5c], blobs := [] }

def snapC5w1 : Snapshot := { id := 1, date := "da", parent := none, changes := emptyChanges }

def snapC5w2 : Snapshot := { id := 2, date := "db", parent := some 1, changes := emptyChanges }

def storeC5w : Store := { snaps := [snapC5w1, snapC5w2], blobs := [] }

def snapC6w : Snapshot := { id := 1, date := "da", parent := none, changes := emptyChanges }

def storeC6w : Store := { snaps := [snapC6w], blobs := [] }

def snapC9 : Snapshot :=
  { id := 1, date := "da", parent := none,
    changes := { added := [("a", "hm")], modified := [], deleted := [] } }

/-- A store whose single snapshot references a digest with no stored
blob. -/
def storeC9 : Store := { snaps := [snapC9], blobs := [] }

/-- Claim C1 (code_bug evaluation).  Round-trip failure of the sync
variant: snapshot the directory a = x, then snapshot the directory
whose file a holds the digest string recorded for it (content Hx, the
demoHash digest of x).  createSnapshot compares hashContent of the
stored digest with the new digest, the two coincide, the change is
omitted from the delta, and restoring the new snapshot into an empty
target reproduces the OLD content x instead of Hx: the restored tree is
not byte-for-byte identical to the snapshotted directory. -/
theorem c1_roundtrip_broken :
    restoreSnapshot 10 pairB2.1 pairB2.2.id = Except.ok [("a", "x")] ∧
      dirDigestContent = [("a", "Hx")] ∧
      ([("a", "x")] : Dir) ≠ [("a", "Hx")] :=
  ⟨rfl, rfl, by decide⟩

/-- Claim C2 (code_bug evaluation).  Pruning snapshot 1 out of the
chain 1 (adds a) then 2 (adds b) only rewrites the parent pointer of
snapshot 2: the delta of snapshot 1 is discarded without being merged,
so the remaining snapshot 2 reconstructs to a different flat state than
before the prune (path a is lost) and the blob ha it needed is swept. -/
theorem c2_prune_loses_data :
    pruneSnapshot storeC2 1 = Except.ok storeC2after ∧
      reconstructSnapshot 5 storeC2 2 = [("a", "ha"), ("b", "hb")] ∧
      reconstructSnapshot 5 storeC2after 2 = [("b", "hb")] ∧
      Store.findBlob storeC2after "ha" = none ∧
      ([("b", "hb")] : Flat) ≠ [("a", "ha"), ("b", "hb")] :=
  ⟨rfl, rfl, rfl, rfl, by decide⟩

/-- Claim C3 (code_bug evaluation).  Taking a second snapshot of the
completely unchanged directory a = x: the sync variant computes
hashContent(parentFlat[a]) (re-hashing the stored digest) and compares
it with the new digest, which never matches, so the unchanged path is
recorded under modified instead of being omitted from the delta. -/
theorem c3_unchanged_marked_modified :
    pairA2.2.changes = { added := [], modified := [("a", "Hx")], deleted := [] } ∧
      ([("a", "Hx")] : List (Path × Digest)) ≠ [] :=
  ⟨rfl, by decide⟩

/-- The async classification loop, by contrast, leaves the delta of an
unchanged directory completely empty (it compares the stored digest
with the new digest directly). -/
theorem asyncChanges_unchanged_empty :
    createSnapshotAsyncChanges demoHash dirAX (flattenDir demoHash dirAX)
      [("a", "Hx")] = emptyChanges := rfl

/-- Claim C6 counterexample.  Creating snapshots 1 and 2, pruning 2 and
creating again reassigns id 2: the id of a createSnapshot is not
distinct from every id ever previously assigned once the snapshot with
the maximum id has been pruned. -/
theorem c6_counterexample :
    pairA1.2.id = 1 ∧ pairA2.2.id = 2 ∧
      (pruneSnapshot pairA2.1 2).map
        (fun t => (createSnapshotSync demoHash 10 "d4" t dirAX).2.id) = Except.ok 2 :=
  ⟨rfl, rfl, rfl⟩

/-- Claim C7 counterexample.  loadSnapshot (both variants) on an id
with no persisted record does not fail: it returns the sentinel empty
record (date empty string, parent null, empty changes) as a value. -/
theorem c7_counterexample :
    loadSnapshot emptyStore 1 =
      { id := 1, date := "", parent := none, changes := emptyChanges } ∧
      (loadSnapshot emptyStore 1).date = "" :=
  ⟨rfl, rfl⟩

/-- Claim C7 (amended).  The cache-backed loader used by the async
reconstruction does fail when the record is absent: with the id neither
cached nor persisted, loadSnapshotWithCache returns an error. -/
theorem c7_cache_load_fails (s : Store) (cache : List (Nat × Snapshot)) (id : Nat)
    (hc : cache.find? (fun e => e.1 == id) = none)
    (hs : s.findSnap id = none) :
    loadSnapshotWithCache s cache id =
      Except.error ("Failed to load snapshot " ++ toString id) := by
  unfold loadSnapshotWithCache
  rw [hc, hs]

/-- Witness for c7_cache_load_fails at the empty store and empty
cache. -/
theorem c7_witness :
    loadSnapshotWithCache emptyStore [] 4 =
      Except.error ("Failed to load snapshot " ++ toString 4) :=
  c7_cache_load_fails emptyStore [] 4 rfl rfl

/-- Claim C8.  pruneSnapshot of an id with no persisted record fails
with an error: loadSnapshot returns the sentinel (date empty), the date
check throws, and the throw happens before any record rewrite, record
deletion or blob deletion, so the store is untouched (the model
returns the error without producing a successor state). -/
theorem c8_prune_missing_fails (s : Store) (id : Nat)
    (h : s.findSnap id = none) :
    pruneSnapshot s id =
      Except.error ("Snapshot with ID " ++ toString id ++ " does not exist.") := by
  have hload : loadSnapshot s id =
      { id := id, date := "", parent := none, changes := emptyChanges } := by
    unfold loadSnapshot
    rw [h]
  unfold pruneSnapshot
  rw [hload]
  exact rfl

/-- Witness for c8_prune_missing_fails at the empty store. -/
theorem c8_witness :
    pruneSnapshot emptyStore 7 =
      Except.error ("Snapshot with ID " ++ toString 7 ++ " does not exist.") :=
  c8_prune_missing_fails emptyStore 7 rfl

/-- Claim C9 counterexample.  In the sync variant the blob-size query
used by logicalSize is statSync, which throws on a missing blob: on a
store whose snapshot references digest hm with no stored blob, the
sync blobSize fails and logicalSize aborts instead of reporting 0. -/
theorem c9_counterexample :
    blobSizeSync storeC9 "hm" = Except.error ("ENOENT: " ++ "hm") ∧
      logicalSizeSync 2 storeC9 1 = Except.error ("ENOENT: " ++ "hm") :=
  ⟨rfl, rfl⟩

/-- Claim C9 (amended).  The async variant blob-size query returns 0
for a digest with no stored blob instead of failing, so the async size
reports never abort on an individually missing blob. -/
theorem c9_blobSize_missing_zero (s : Store) (d : Digest)
    (h : s.findBlob d = none) : blobSize s d = 0 := by
  unfold blobSize
  rw [h]

/-- Witness for c9_blobSize_missing_zero at the empty store. -/
theorem c9_witness : blobSize emptyStore "zz" = 0 :=
  c9_blobSize_missing_zero emptyStore "zz" rfl

/-- Claim C10.  In the sync variant, reconstructSnapshot of an id with
no persisted record does not fail: loadSnapshot returns the sentinel
record (empty date, null parent, empty changes), so the reconstruction
returns the empty flat mapping. -/
theorem c10_reconstruct_missing_empty (fuel : Nat) (s : Store) (id : Nat)
    (h : s.findSnap id = none) :
    reconstructSnapshot fuel s id = [] := by
  have hload : loadSnapshot s id =
      { id := id, date := "", parent := none, changes := emptyChanges } := by
    unfold loadSnapshot
    rw [h]
  cases fuel with
  | zero => rfl
  | succ n =>
    unfold reconstructSnapshot
    rw [hload]
    exact rfl

/-- Witness for c10_reconstruct_missing_empty at the empty store. -/
theorem c10_witness : reconstructSnapshot 3 emptyStore 9 = [] :=
  c10_reconstruct_missing_empty 3 emptyStore 9 rfl

theorem contains_append (l1 l2 : List Digest) (h : Digest) :
    (l1 ++ l2).contains h = (l1.contains h || l2.contains h) := by
  induction l1 with
  | nil => simp
  | cons a t ih => simp [List.contains_cons, ih, Bool.or_assoc]

/-- The early-exit membership walk seenBefore returns exactly
membership of the digest in the concatenated added/modified digests of
the ancestors it reaches. -/
theorem seenBefore_eq_contains (fuel : Nat) (s : Store) (h : Digest) :
    ∀ cur, seenBefore fuel s h cur = (ancestorsDigests fuel s cur).contains h := by
  induction fuel with
  | zero =>
    intro cur
    cases cur with
    | none => rfl
    | some c => rfl
  | succ n ih =>
    intro cur
    cases cur with
    | none => rfl
    | some c =>
      by_cases hc : (c == 0) = true
      · simp [seenBefore, ancestorsDigests, hc]
      · rw [show seenBefore (n + 1) s h (some c) =
              (if (blobsInSnapshot (loadSnapshot s c)).contains h then true
               else seenBefore n s h (loadSnapshot s c).parent) from by
            simp [seenBefore, hc],
          show ancestorsDigests (n + 1) s (some c) =
              blobsInSnapshot (loadSnapshot s c) ++
                ancestorsDigests n s (loadSnapshot s c).parent from by
            simp [ancestorsDigests, hc]]
        rw [contains_append, ih]
        cases hcc : (blobsInSnapshot (loadSnapshot s c)).contains h <;> simp [hcc]

theorem exceptMap_ok {α β : Type} (a : α) (f : α → β) :
    (Except.ok a : Except String α).map f = Except.ok (f a) := rfl

theorem exceptBind_ok {α β : Type} (a : α) (f : α → Except String β) :
    (Except.ok a : Except String α) >>= f = f a := rfl

/-- The physicalSize accumulation loop, with every referenced blob
present, equals a pure fold over the unseen entries of the digest
list, each entry contributing its blob size once per occurrence. -/
theorem physicalFold (fuel : Nat) (s : Store) (par : Option Nat)
    (l : List Digest) (acc : Nat)
    (hp : ∀ h ∈ l, (Store.findBlob s h).isSome = true) :
    (l.foldlM (fun total h =>
        if !(seenBefore fuel s h par) then
          (blobSizeSync s h).map (fun sz => total + sz)
        else Except.ok total) acc)
      = Except.ok ((l.filter
            (fun h => !((ancestorsDigests fuel s par).contains h))).foldl
          (fun total h => total + blobSize s h) acc) := by
  induction l generalizing acc with
  | nil => rfl
  | cons h t ih =>
    have hh := hp h (List.mem_cons_self _ _)
    have ht : ∀ x ∈ t, (Store.findBlob s x).isSome = true :=
      fun x hx => hp x (List.mem_cons_of_mem _ hx)
    rw [List.foldlM_cons, List.filter_cons, seenBefore_eq_contains]
    cases hseen : (ancestorsDigests fuel s par).contains h
    · obtain ⟨c, hc⟩ := Option.isSome_iff_exists.mp hh
      have hbs : blobSizeSync s h = Except.ok c.length := by
        unfold blobSizeSync
        rw [hc]
      have hb : blobSize s h = c.length := by
        unfold blobSize
        rw [hc]
      simp only [hseen, Bool.not_false, if_pos, hbs, exceptMap_ok, exceptBind_ok,
        if_true, List.foldl_cons, hb]
      exact ih (acc + c.length) ht
    · simp only [hseen, Bool.not_true, Bool.false_eq_true, if_neg, if_false,
        exceptBind_ok]
      exact ih acc ht

/-- Claim C4 (amended).  physicalSize equals the sum of blob sizes over
the entries of the own added/modified digest list (one contribution per
path entry, so a digest shared by several entries counts once per
entry) whose digest does not appear in the added/modified sets of any
ancestor reached by following parent pointers; in particular it is 0
when every entry is seen by an ancestor.  The hypothesis supplies the
blobs (invariant 3 of the spec); the walk bound fuel is shared by both
sides. -/
theorem c4_physicalSize_entrywise (fuel : Nat) (s : Store) (id : Nat)
    (hp : ∀ h ∈ blobsInSnapshot (loadSnapshot s id), (Store.findBlob s h).isSome = true) :
    physicalSize fuel s id =
      Except.ok (((blobsInSnapshot (loadSnapshot s id)).filter
          (fun h => !((ancestorsDigests fuel s (loadSnapshot s id).parent).contains h))).foldl
        (fun total h => total + blobSize s h) 0) := by
  unfold physicalSize
  exact physicalFold fuel s (loadSnapshot s id).parent _ 0 hp

/-- Claim C4 counterexample.  A snapshot whose two added paths share
one digest h (blob of 5 bytes, no ancestor): the code counts the blob
once per entry and reports 10, while the claim formula (a sum over the
set of digests) gives 5. -/
theorem c4_counterexample :
    physicalSize 5 storeC4 1 = Except.ok 10 ∧
      physicalSizeSpecSet 5 storeC4 1 = 5 ∧ (10 : Nat) ≠ 5 :=
  ⟨rfl, rfl, by decide⟩

/-- Witness for c4_physicalSize_entrywise on a one-snapshot store. -/
theorem c4_witness :
    physicalSize 3 storeC4w 1 =
      Except.ok (((blobsInSnapshot (loadSnapshot storeC4w 1)).filter
          (fun h => !((ancestorsDigests 3 storeC4w (loadSnapshot storeC4w 1).parent).contains h))).foldl
        (fun total h => total + blobSize storeC4w h) 0) :=
  c4_physicalSize_entrywise 3 storeC4w 1 (by decide)

theorem find?_map_upsert (l : List Snapshot) (snap : Snapshot)
    (h : l.any (fun sn => sn.id == snap.id) = true) :
    (l.map (fun sn => if sn.id == snap.id then snap else sn)).find?
      (fun sn => sn.id == snap.id) = some snap := by
  induction l with
  | nil => simp at h
  | cons a t ih =>
    rw [List.map_cons]
    by_cases ha : (a.id == snap.id) = true
    · rw [if_pos ha]
      exact List.find?_cons_of_pos _ (beq_self_eq_true _)
    · rw [if_neg ha]
      rw [show List.find? (fun sn => sn.id == snap.id)
            (a :: List.map (fun sn => if sn.id == snap.id then snap else sn) t) =
          List.find? (fun sn => sn.id == snap.id)
            (List.map (fun sn => if sn.id == snap.id then snap else sn) t) from
        List.find?_cons_of_neg _ ha]
      apply ih
      rw [List.any_cons] at h
      cases hx : a.id == snap.id
      · rw [hx] at h
        simpa using h
      · exact absurd hx ha

theorem find?_append_last (l : List Snapshot) (snap : Snapshot)
    (h : l.any (fun sn => sn.id == snap.id) = false) :
    (l ++ [snap]).find? (fun sn => sn.id == snap.id) = some snap := by
  induction l with
  | nil => exact List.find?_cons_of_pos _ (beq_self_eq_true _)
  | cons a t ih =>
    rw [List.any_cons, Bool.or_eq_false_iff] at h
    rw [List.cons_append, List.find?_cons_of_neg _ (by rw [h.1]; exact Bool.false_ne_true)]
    exact ih h.2

/-- saveSnapshot (writeFileSync keyed by id) makes the saved record the
one found at its id. -/
theorem findSnap_save (s : Store) (snap : Snapshot) :
    Store.findSnap (saveSnapshot s snap) snap.id = some snap := by
  unfold Store.findSnap saveSnapshot
  cases hany : s.snaps.any (fun sn => sn.id == snap.id)
  · rw [if_neg Bool.false_ne_true]
    exact find?_append_last _ _ hany
  · rw [if_pos rfl]
    exact find?_map_upsert _ _ hany

theorem find?_filter_keep (l : List Snapshot) (p q : Snapshot → Bool)
    (himp : ∀ x, p x = true → q x = true) :
    (l.filter q).find? p = l.find? p := by
  induction l with
  | nil => rfl
  | cons a t ih =>
    rw [List.filter_cons]
    by_cases hq : q a = true
    · rw [if_pos hq]
      by_cases hp : p a = true
      · rw [List.find?_cons_of_pos _ hp, List.find?_cons_of_pos _ hp]
      · rw [List.find?_cons_of_neg _ hp, List.find?_cons_of_neg _ hp, ih]
    · have hp : ¬(p a = true) := fun hpa => hq (himp a hpa)
      rw [if_neg hq, ih, List.find?_cons_of_neg _ hp]

/-- Claim C5 (amended).  When the record at exactly id + 1 exists and
its parent equals id (the contiguous case the source handles), pruning
id rewrites that successor record to point at the pruned snapshot
former parent. -/
theorem c5_splice_contiguous (s : Store) (id : Nat) (succ : Snapshot)
    (hdate : (loadSnapshot s id).date ≠ "")
    (hsucc : s.findSnap (id + 1) = some succ)
    (hpar : succ.parent = some id) :
    (pruneSnapshot s id).map (fun t => t.findSnap (id + 1)) =
      Except.ok (some { succ with parent := (loadSnapshot s id).parent }) := by
  have hsid : succ.id = id + 1 := by
    have h2 : s.snaps.find? (fun sn => sn.id == id + 1) = some succ := hsucc
    have h3 := List.find?_some h2
    simpa using h3
  have hload1 : loadSnapshot s (id + 1) = succ := by
    unfold loadSnapshot
    rw [hsucc]
  have hcond : ((loadSnapshot s id).date == "") = false := by
    cases hx : (loadSnapshot s id).date == ""
    · rfl
    · exact absurd (beq_iff_eq.mp hx) hdate
  have himp : ∀ x : Snapshot, (x.id == id + 1) = true → (!(x.id == id)) = true := by
    intro x hx
    have hxe : x.id = id + 1 := beq_iff_eq.mp hx
    have hne : id + 1 ≠ id := Nat.succ_ne_self id
    rw [hxe]
    simp [hne]
  simp only [pruneSnapshot, hcond, Bool.false_eq_true, if_false, hload1, hpar,
    beq_self_eq_true, if_true, Except.map]
  apply congrArg
  show ((saveSnapshot s { succ with parent := (loadSnapshot s id).parent }).snaps.filter
      (fun sn => !(sn.id == id))).find? (fun sn => sn.id == id + 1) =
    some { succ with parent := (loadSnapshot s id).parent }
  rw [find?_filter_keep _ _ _ himp]
  rw [hsid]
  exact findSnap_save s
    { id := id + 1, date := succ.date, parent := (loadSnapshot s id).parent,
      changes := succ.changes }

/-- Witness for c5_splice_contiguous: pruning 1 out of the contiguous
chain 1 then 2 rewrites the parent of 2 to the former parent of 1. -/
theorem c5_witness :
    (pruneSnapshot storeC5w 1).map (fun t => t.findSnap 2) =
      Except.ok (some { snapC5w2 with parent := (loadSnapshot storeC5w 1).parent }) :=
  c5_splice_contiguous storeC5w 1 snapC5w2 (by decide) (by decide) rfl

/-- Claim C5 counterexample.  On the non-contiguous chain 1 parent of
3 (id 2 pruned earlier), pruning 1 leaves the parent field of its
successor 3 at 1 (a dangling id) instead of rewriting it to the pruned
snapshot former parent (null): the successor lookup only consults
id + 1. -/
theorem c5_counterexample :
    (pruneSnapshot storeC5 1).map (fun t => (t.findSnap 3).map Snapshot.parent) =
      Except.ok (some (some 1)) ∧
      (loadSnapshot storeC5 1).parent = none ∧
      (some 1 : Option Nat) ≠ none :=
  ⟨rfl, rfl, by decide⟩

theorem le_foldr_max (sn : Snapshot) (l : List Snapshot) (h : sn ∈ l) :
    sn.id ≤ l.foldr (fun x m => max x.id m) 0 := by
  induction l with
  | nil => cases h
  | cons a t ih =>
    rw [List.foldr_cons]
    rcases List.mem_cons.mp h with heq | ht
    · rw [heq]
      exact le_max_left _ _
    · exact le_trans (ih ht) (le_max_right _ _)

/-- Claim C6 (amended).  The id createSnapshot assigns (maximum
existing id + 1, or 1 when the store is empty) is strictly greater
than the id of every currently persisted snapshot, hence distinct from
every currently existing id.  (The counterexample shows it can equal
the id of an already pruned snapshot.) -/
theorem c6_new_id_exceeds_existing (hash : Content → Digest) (fuel : Nat)
    (date : String) (s : Store) (d : Dir) (sn : Snapshot) (h : sn ∈ s.snaps) :
    sn.id < (createSnapshotSync hash fuel date s d).2.id := by
  have hid : (createSnapshotSync hash fuel date s d).2.id = newSnapshotId s := rfl
  rw [hid]
  have hne : s.snaps.isEmpty = false := by
    cases hsnaps : s.snaps with
    | nil =>
      rw [hsnaps] at h
      exact absurd h (List.not_mem_nil _)
    | cons a t => rfl
  have hle : sn.id ≤ maxSnapshotId s := le_foldr_max sn s.snaps h
  unfold newSnapshotId lastSnapshotId
  rw [hne, if_neg Bool.false_ne_true]
  show sn.id < if (maxSnapshotId s == 0) = true then 1 else maxSnapshotId s + 1
  by_cases h0 : (maxSnapshotId s == 0) = true
  · rw [if_pos h0]
    have h0e : maxSnapshotId s = 0 := beq_iff_eq.mp h0
    omega
  · rw [if_neg h0]
    omega

/-- Witness for c6_new_id_exceeds_existing on a one-snapshot store. -/
theorem c6_witness :
    snapC6w.id < (createSnapshotSync demoHash 5 "dd" storeC6w dirAX).2.id :=
  c6_new_id_exceeds_existing demoHash 5 "dd" storeC6w dirAX snapC6w (by decide)

end BackupTool
